import Mathlib

/-!
Verification development for the wf-market client library.

This file gives a shallow embedding of the library's session model
(`Client`), its websocket routing subsystem (`Route`, `Router`,
`MessageSender`, `WsClient`) and the authentication flow (`login`,
`refresh`, `take_order`, `get_items`, `get_orders_top`), translated from
`src/client/mod.rs`, `src/client/auth.rs` and `src/client/ws/mod.rs`.

Rust `String` values are modelled as lists of characters (`Str`).
Asynchronous network calls are modelled by passing the outcome of each
call explicitly as a parameter of the corresponding function; panics
(`unwrap`, out-of-range slicing) are modelled by an `Option` layer where
they can occur, with `none` standing for a panic.
-/

namespace WfMarket

/-- Rust strings, modelled as lists of characters. -/
abbrev Str := List Char

/-- Websocket error type, from `src/error.rs` (`enum WsError`). -/
inductive WsError where
  | ReservedPath (s : Str)
  | InvalidPath (s : Str)
  | AlreadyRegistered (s : Str)
  | InvalidMessageReceived (s : Str)
  | ConnectionError
  | InvalidMessage
  | SendError (s : Str)
  | NotConnected
deriving DecidableEq

/-- JSON values (`serde_json::Value`), opaque payload data for this layer. -/
inductive Json where
  | null
  | bool (b : Bool)
  | num (n : Int)
  | str (s : Str)
  | arr (xs : List Json)
  | obj (fields : List (Str × Json))

/-- Websocket frame, from `src/client/ws/mod.rs` (`struct WsMessage`). -/
structure WsMessage where
  route : Str
  payload : Option Json
  id : Option Str
  ref_id : Option Str

/-- `WsMessage::connect`: the synthesized internal "connected" lifecycle message. -/
def WsMessage.connect : WsMessage :=
  { route := "@internal|internal/connected".data
    payload := some (.obj [("status".data, .str "connected".data)])
    id := some "INTERNAL".data
    ref_id := none }

/-- `WsMessage::disconnect`: the synthesized internal "disconnected" lifecycle message. -/
def WsMessage.disconnect (error : Str) : WsMessage :=
  { route := "@internal|internal/disconnected".data
    payload := some (.obj [("reason".data, .str error)])
    id := some "INTERNAL".data
    ref_id := none }

/-- Parsed topic, from `src/client/ws/mod.rs` (`struct Route`). -/
structure Route where
  protocol : Str
  path : Str
  parameter : Option Str
deriving DecidableEq

/-- Split a string at the first occurrence of `c`: this models Rust's
`s.find(c)` followed by the two slices `s[..pos]` and `s[pos + 1..]`;
`none` models `find` returning `None`. -/
def splitFirst (c : Char) : Str → Option (Str × Str)
  | [] => none
  | x :: xs =>
    if x = c then some ([], xs)
    else (splitFirst c xs).map (fun p => (x :: p.1, p.2))

/-- `Route::parse`: split protocol from the rest at the first `|`, then the
path from the parameter at the first `:` of the rest. -/
def Route.parse (route_str : Str) : Except WsError Route :=
  match splitFirst '|' route_str with
  | some (protocol, path_and_param) =>
    match splitFirst ':' path_and_param with
    | some (path, parameter) =>
      .ok { protocol := protocol, path := path, parameter := some parameter }
    | none =>
      .ok { protocol := protocol, path := path_and_param, parameter := none }
  | none => .error (WsError.InvalidPath route_str)

/-- `Route::to_string`: `format!("{}|{}:{}", ...)` or `format!("{}|{}", ...)`. -/
def Route.to_string (r : Route) : Str :=
  match r.parameter with
  | some param => r.protocol ++ '|' :: (r.path ++ ':' :: param)
  | none => r.protocol ++ '|' :: r.path

/-- `Route::base_path`: the path without the parameter. -/
def Route.base_path (r : Route) : Str :=
  r.path

/-- `Route::full_path`: the path with the parameter attached for exact matching. -/
def Route.full_path (r : Route) : Str :=
  match r.parameter with
  | some param => r.path ++ ':' :: param
  | none => r.path

/-- Model of `MessageSender` together with the outbound unbounded channel it
feeds: `queue` is the list of messages enqueued so far, `closed` records
whether the receiving half was dropped (the only way `tx.send` can fail). -/
structure MessageSender where
  queue : List WsMessage
  closed : Bool

/-- `MessageSender::send_message`: non-blocking enqueue onto the unbounded
channel; fails with `SendError` only when the channel is closed. -/
def MessageSender.send_message (s : MessageSender) (message : WsMessage) :
    Except WsError MessageSender :=
  if s.closed then .error (WsError.SendError "channel closed".data)
  else .ok { s with queue := s.queue ++ [message] }

/-- `MessageSender::send_response`. The uuid v4 generation is nondeterministic
in the source; the fresh id is passed in as the `uuid` argument. -/
def MessageSender.send_response (s : MessageSender) (route : Str) (payload : Json)
    (ref_id : Str) (uuid : Str) : Except WsError MessageSender :=
  s.send_message
    { route := route, payload := some payload, id := some uuid, ref_id := some ref_id }

/-- `MessageSender::send_request`: enqueue and return the generated id. -/
def MessageSender.send_request (s : MessageSender) (route : Str) (payload : Json)
    (uuid : Str) : Except WsError (Str × MessageSender) :=
  (s.send_message
    { route := route, payload := some payload, id := some uuid, ref_id := none }).map
    (fun s' => (uuid, s'))

/-- `MessageCallback`: handlers receive the message, its parsed route and a
sender handle. Modelled as pure functions returning the handler's result. -/
abbrev MessageCallback := WsMessage → Route → MessageSender → Except WsError Unit

/-- `HashMap::get` on the handler table, modelled as an association list. -/
def mapGet {α : Type} (m : List (Str × α)) (k : Str) : Option α :=
  match m with
  | [] => none
  | (k', v) :: rest => if k' = k then some v else mapGet rest k

/-- `HashMap::insert` (fresh key, guaranteed by `register`'s contains check). -/
def mapInsert {α : Type} (m : List (Str × α)) (k : Str) (v : α) : List (Str × α) :=
  m ++ [(k, v)]

/-- The router's handler table (`struct Router`). -/
structure Router where
  routes : List (Str × MessageCallback)

/-- `Router::get_reserved_paths`: internal reserved base paths. -/
def Router.get_reserved_paths : List Str :=
  ["cmd/auth/signIn".data]

/-- `Router::is_path_reserved`. -/
def Router.is_path_reserved (path : Str) : Bool :=
  decide (path ∈ Router.get_reserved_paths)

/-- `Router::register`: reserved paths are rejected, then duplicate keys,
then the callback is inserted under the exact key. -/
def Router.register (r : Router) (path : Str) (callback : MessageCallback) :
    Except WsError Router :=
  if Router.is_path_reserved path then
    .error (WsError.ReservedPath path)
  else if (mapGet r.routes path).isSome then
    .error (WsError.AlreadyRegistered path)
  else
    .ok { routes := mapInsert r.routes path callback }

/-- `Router::handle_internal_route`: lifecycle bookkeeping for reserved
topics; on `cmd/auth/signIn:ok` the internal `internal/auth_connected`
callback is invoked when registered; all other cases only log. -/
def Router.handle_internal_route (r : Router) (route : Route) (_message : WsMessage)
    (sender : MessageSender) : Except WsError Unit :=
  if route.base_path = "cmd/auth/signIn".data then
    if route.parameter = some "ok".data then
      match mapGet r.routes "internal/auth_connected".data with
      | some connected_callback =>
        connected_callback
          { route := "@internal|internal/auth_connected".data
            payload := some (.bool true)
            id := some "INTERNAL".data
            ref_id := none }
          { protocol := "@internal".data
            path := "internal/auth_connected".data
            parameter := none }
          sender
      | none => .ok ()
    else .ok ()
  else .ok ()

/-- `Router::route_message`: parse the topic, special-case reserved base
paths, then resolve the exact `path:parameter` key before the bare base
path; with no handler the message is dropped (logged) and the result is ok. -/
def Router.route_message (r : Router) (message : WsMessage) (sender : MessageSender) :
    Except WsError Unit :=
  match Route.parse message.route with
  | .error e => .error e
  | .ok route =>
    if Router.is_path_reserved route.base_path then
      match r.handle_internal_route route message sender with
      | .error e => .error e
      | .ok _ => .ok ()
    else
      match (mapGet r.routes route.full_path).orElse
          (fun _ => mapGet r.routes route.base_path) with
      | some callback => callback message route sender
      | none => .ok ()

/-- The public transport handle (`struct WsClient`): a shared, swappable
reference to the current epoch's sender, if any. -/
structure WsClient where
  sender : Option MessageSender

/-- `WsClient::send_message`: enqueue through the current sender, or fail
with `ConnectionError` when no epoch is open. No reserved-route check. -/
def WsClient.send_message (c : WsClient) (message : WsMessage) :
    Except WsError WsClient :=
  match c.sender with
  | some sender => (sender.send_message message).map (fun s => { sender := some s })
  | none => .error WsError.ConnectionError

/-- `WsClient::send_response`: enqueue a correlated response, or fail with
`NotConnected`. No reserved-route check. -/
def WsClient.send_response (c : WsClient) (route : Str) (payload : Json)
    (ref_id : Str) (uuid : Str) : Except WsError WsClient :=
  match c.sender with
  | some sender =>
    (sender.send_response route payload ref_id uuid).map (fun s => { sender := some s })
  | none => .error WsError.NotConnected

/-- `WsClient::send_request`: parse the route, reject protocol `"internal"`
with `ReservedPath`, then enqueue and return the generated id, or fail with
`NotConnected`. -/
def WsClient.send_request (c : WsClient) (route : Str) (payload : Json)
    (uuid : Str) : Except WsError (Str × WsClient) :=
  match Route.parse route with
  | .error _ => .error (WsError.InvalidPath route)
  | .ok route_parsed =>
    if route_parsed.protocol = "internal".data then
      .error (WsError.ReservedPath "Can\x27t send on internal routes".data)
    else
      match c.sender with
      | some sender =>
        (sender.send_request route payload uuid).map (fun p => (p.1, { sender := some p.2 }))
      | none => .error WsError.NotConnected

/-- A concrete marker handler whose invocation is observable in its result. -/
def cbMarker : MessageCallback :=
  fun _ _ _ => .error (WsError.SendError "fired".data)

/-- A router holding only a bare-path handler for `"orders/new"`. -/
def routerOrdersNew : Router :=
  { routes := [("orders/new".data, cbMarker)] }

/-- An inbound message with topic `"ns|orders/new:created"`. -/
def msgOrdersNew : WsMessage :=
  { route := "ns|orders/new:created".data, payload := none, id := none, ref_id := none }

/-- The same base path and parameter under a different protocol. -/
def msgWfmOrdersNew : WsMessage :=
  { route := "@wfm|orders/new:created".data, payload := none, id := none, ref_id := none }

/-- An open sender with an empty outbound queue. -/
def senderIdle : MessageSender :=
  { queue := [], closed := false }

/-- User online status (`types::user::StatusType`). -/
inductive StatusType where
  | Offline
  | Online
  | InGame
deriving DecidableEq

/-- Logged-in user record (`types::user::FullUser`); the remaining fields of
the collaborator-owned schema carry no behaviour in this layer. -/
structure FullUser where
  id : Str
  name : Str
  status_type : StatusType
deriving DecidableEq

/-- Raw order record (`types::item::Order`); identity-bearing fields of the
collaborator-owned schema. -/
structure OrderItem where
  id : Str
  platinum : Nat
  quantity : Nat
  visible : Bool
  item_id : Str
deriving DecidableEq

/-- `types::user::MinimalUser`, as carried by `OrderWithUser`. -/
structure MinimalUser where
  id : Str
  status_type : StatusType
deriving DecidableEq

/-- `types::item::OrderWithUser`. -/
structure OrderWithUser where
  order : OrderItem
  user : MinimalUser
deriving DecidableEq

/-- `OrderWithUser::downgrade`: drop the user, keep the order fields. -/
def OrderWithUser.downgrade (o : OrderWithUser) : OrderItem :=
  o.order

/-- `types::item::OrdersTopResult`. -/
structure OrdersTopResult where
  buy : List OrderWithUser
  sell : List OrderWithUser
deriving DecidableEq

/-- Raw item record (`types::item::Item`); identity-bearing fields of the
collaborator-owned schema. -/
structure ItemObject where
  id : Str
  slug : Str
deriving DecidableEq

/-- Managed order (`client::order::Order<State>`): the Owned/Unowned marker
is a phantom type with no runtime data, so one carrier type serves both. -/
structure Order where
  object : OrderItem
deriving DecidableEq

/-- `Order::<Unowned>::new`. -/
def Order.new (order : OrderItem) : Order :=
  { object := order }

/-- `Order::<Owned>::new_owned`. -/
def Order.new_owned (order : OrderItem) : Order :=
  { object := order }

/-- `Order::get_type`. -/
def Order.get_type (o : Order) : OrderItem :=
  o.object

/-- Managed item (`client::item::Item<Regular>`). -/
structure Item where
  object : ItemObject
deriving DecidableEq

/-- `Item::<Regular>::new`. -/
def Item.new (object : ItemObject) : Item :=
  { object := object }

/-- `types::filter::OrdersTopFilters`. -/
structure OrdersTopFilters where
  rank : Option Nat
  rank_lt : Option Nat
  charges : Option Nat
  charges_lt : Option Nat
  amber_stars : Option Nat
  amber_stars_lt : Option Nat
  cyan_stars : Option Nat
  cyan_stars_lt : Option Nat
  subtype : Option Str
  user_activity : Option StatusType
deriving DecidableEq

/-- Domain error envelope body (`error::ApiErrorBody`). -/
structure ApiErrorBody where
  request : Option (List Str)
  inputs : List (Str × Str)

/-- Domain error envelope (`error::ErrorResponse`). -/
structure ErrorResponse where
  api_version : Str
  data : Option Json
  error : ApiErrorBody

/-- API error type, from `src/error.rs` (`enum ApiError`). -/
inductive ApiError where
  | ParsingError (s : Str)
  | RequestError
  | Unauthorized
  | NotFound (s : Str)
  | Forbidden
  | WFMError (resp : ErrorResponse)
  | Unknown (s : Str)

/-- Authentication error type, from `src/error.rs` (`enum AuthError`). -/
inductive AuthError where
  | NoUser
  | ParsingError
  | Unknown (s : Str)
deriving DecidableEq

/-- Typestate marker: unauthenticated session. -/
structure Unauthenticated

/-- Typestate marker: authenticated session. -/
structure Authenticated

/-- Session state (`struct Client<State>`): the HTTP client and rate
limiter carry no data observable at this layer; the typestate marker is
kept as a type parameter as in the source. -/
structure Client (State : Type) where
  user : Option FullUser
  orders : List Order
  status : StatusType
  items_cache : List Item
  token : Option Str
  device_id : Option Str

/-- `Client::new`: unauthenticated session with empty caches. -/
def Client.new : Client Unauthenticated :=
  { user := none
    orders := []
    status := StatusType.Offline
    items_cache := []
    token := none
    device_id := none }

/-- Outcome of one `get_items` call: the returned value, the resulting
session state, and whether the HTTP request path was invoked (the call to
`call_api`); the last field instruments the network effect the source
performs. -/
structure GetItemsCall (State : Type) where
  result : Except ApiError (List Item)
  client : Client State
  requested : Bool

/-- `Client::get_items`: serve a clone of `items_cache` when it is
non-empty, otherwise fetch `/items` and return the mapped result. The
source never writes `items_cache` (it takes `&self` in
`src/client/mod.rs`), so the session state is returned unchanged on every
path. The fetch outcome is the `fetch` parameter. -/
def Client.get_items {State : Type} (c : Client State)
    (fetch : Except ApiError (List ItemObject)) : GetItemsCall State :=
  if !c.items_cache.isEmpty then
    { result := .ok c.items_cache, client := c, requested := false }
  else
    match fetch with
    | .ok items => { result := .ok (items.map Item.new), client := c, requested := true }
    | .error e => { result := .error e, client := c, requested := true }

/-- `Client::get_orders_top` (response handling): with the fetch outcome
passed in as `fetch`, filter both top lists by the conjunction of the
is-filtering flag and the user-activity comparison, then concatenate.
The query-string construction only shapes the request and is absorbed
into `fetch`. -/
def Client.get_orders_top {State : Type} (_c : Client State)
    (filters : Option OrdersTopFilters) (fetch : Except ApiError OrdersTopResult) :
    Except ApiError (List Order) :=
  match fetch with
  | .error e => .error e
  | .ok data =>
    let is_filtering_status : Bool :=
      match filters with
      | some f => f.user_activity.isSome
      | none => false
    let matches_status : OrderWithUser → Bool := fun o =>
      is_filtering_status &&
        (match filters with
         | some f =>
           match f.user_activity with
           | some ua => o.user.status_type == ua
           | none => false
         | none => false)
    let buy := (data.buy.filter matches_status).map (fun order => Order.new order.downgrade)
    let sell := (data.sell.filter matches_status).map (fun order => Order.new order.downgrade)
    .ok (buy ++ sell)

/-- `Client::refresh` (authenticated only): the two fetch outcomes (profile
`/me` and open orders `/orders/my`) are passed in; the source issues both
requests, then propagates the orders error first (`orders?`), then the
profile error (`user?`), and only after both succeed replaces `orders` and
`user`. Returns the call result and the resulting session state. -/
def Client.refresh (c : Client Authenticated)
    (user_fetch : Except ApiError FullUser)
    (orders_fetch : Except ApiError (List OrderItem)) :
    Except ApiError FullUser × Client Authenticated :=
  match orders_fetch with
  | .error e => (.error e, c)
  | .ok orders_data =>
    match user_fetch with
    | .error e => (.error e, c)
    | .ok user_data =>
      (.ok user_data,
        { c with orders := orders_data.map Order.new_owned, user := some user_data })

/-- `Client::take_order` (authenticated only): purely local check against
the order cache of the last refresh; no fetch outcome parameter because the
source makes no network call. -/
def Client.take_order (c : Client Authenticated) (order : Order) :
    Except ApiError Order :=
  if (c.orders.find? (fun _order => _order.object.id == order.object.id)).isSome then
    .ok (Order.new_owned order.get_type)
  else
    .error ApiError.Unauthorized

/-- An `Authorization` header value as observed by `HeaderValue::to_str`:
`invalid` models `to_str()` failing on non-ASCII bytes. -/
inductive HeaderValue where
  | invalid
  | valid (s : Str)
deriving DecidableEq

/-- `APIV1Result<AuthResp>`: the deserialized signin body, `payload.user`. -/
structure AuthPayload where
  user : FullUser
deriving DecidableEq

/-- Outcome of the credential-exchange POST issued by `login`:
`netErr` models `send()` failing; `bodyReadErr` models `resp.text()`
failing (the source calls `.unwrap()` on it); `resp` carries the
`Authorization` header (if any) and the result of deserializing the body. -/
inductive SigninOutcome where
  | netErr (e : Str)
  | bodyReadErr
  | resp (authorization : Option HeaderValue) (body_parse : Except Unit AuthPayload)

/-- Rust byte slicing `&s[n..]`: panics (`none`) when `n` exceeds the
length. -/
def rustSliceFrom (n : Nat) (s : Str) : Option Str :=
  if n ≤ s.length then some (s.drop n) else none

/-- `Client::login`: credential exchange against `/auth/signin`, body
deserialization, `Authorization` header extraction, `"JWT "` prefix strip
via `&token[4..]`, rebuild of the dispatcher state, then a mandatory
post-login refresh. The overall result is wrapped in `Option`, with `none`
standing for a panic (`resp.text().unwrap()`, out-of-range slice). -/
def Client.login (c : Client Unauthenticated) (_username _password : Str)
    (device_id : Str) (outcome : SigninOutcome)
    (refresh_user : Except ApiError FullUser)
    (refresh_orders : Except ApiError (List OrderItem)) :
    Option (Except AuthError (Client Authenticated)) :=
  match outcome with
  | .netErr e => some (.error (AuthError.Unknown ("Unknown Error: ".data ++ e)))
  | .bodyReadErr => none
  | .resp authorization body_parse =>
    match body_parse with
    | .error _ => some (.error AuthError.ParsingError)
    | .ok data =>
      match authorization with
      | none => some (.error AuthError.ParsingError)
      | some HeaderValue.invalid => some (.error AuthError.ParsingError)
      | some (HeaderValue.valid token) =>
        match rustSliceFrom 4 token with
        | none => none
        | some jwt =>
          let authed_client : Client Authenticated :=
            { user := some data.user
              orders := []
              status := data.user.status_type
              items_cache := c.items_cache
              token := some jwt
              device_id := some device_id }
          let refreshed := authed_client.refresh refresh_user refresh_orders
          match refreshed.1 with
          | .error _ =>
            some (.error (AuthError.Unknown "Unable to refresh user after authentication".data))
          | .ok _ => some (.ok refreshed.2)

/-- A sample user for concrete evaluations. -/
def userSample : FullUser :=
  { id := "u-1".data, name := "tenno".data, status_type := StatusType.Online }

/-- A sample raw order for concrete evaluations. -/
def orderSample : OrderItem :=
  { id := "o-1".data, platinum := 10, quantity := 1, visible := true,
    item_id := "item-1".data }

/-- A sample fetched item list for concrete evaluations. -/
def fetchItemsSample : Except ApiError (List ItemObject) :=
  .ok [{ id := "item-1".data, slug := "yareli_prime_set".data }]

/-- A second raw order with a different identifier. -/
def orderSample2 : OrderItem :=
  { id := "o-2".data, platinum := 20, quantity := 2, visible := true,
    item_id := "item-2".data }

/-- An authenticated session whose last refresh cached exactly `orderSample`. -/
def clientAuthedSample : Client Authenticated :=
  { user := some userSample
    orders := [Order.new_owned orderSample]
    status := StatusType.Online
    items_cache := []
    token := some "tok".data
    device_id := some "dev".data }

/-- A top-orders response with one buy and one sell entry. -/
def ordersTopDataSample : OrdersTopResult :=
  { buy := [{ order := orderSample, user := { id := "u-2".data, status_type := StatusType.InGame } }]
    sell := [{ order := orderSample2, user := { id := "u-3".data, status_type := StatusType.Online } }] }

/-- Filters with every field `None`, in particular no `user_activity`. -/
def filtersNoUA : OrdersTopFilters :=
  { rank := none, rank_lt := none, charges := none, charges_lt := none,
    amber_stars := none, amber_stars_lt := none, cyan_stars := none,
    cyan_stars_lt := none, subtype := none, user_activity := none }

theorem splitFirst_eq_some (c : Char) (s a b : Str) :
    splitFirst c s = some (a, b) → s = a ++ c :: b := by
  induction s generalizing a b with
  | nil => intro h; simp [splitFirst] at h
  | cons x xs ih =>
    intro h
    simp only [splitFirst] at h
    by_cases hx : x = c
    · simp [hx] at h
      obtain ⟨rfl, rfl⟩ := h
      simp [hx]
    · simp [hx] at h
      obtain ⟨p, hp, rfl, rfl⟩ := h
      simp [ih _ _ hp]

theorem splitFirst_eq_none_iff (c : Char) (s : Str) :
    splitFirst c s = none ↔ c ∉ s := by
  induction s with
  | nil => simp [splitFirst]
  | cons x xs ih =>
    by_cases hx : x = c
    · subst hx
      simp [splitFirst]
    · rw [List.mem_cons]
      simp only [splitFirst, if_neg hx]
      cases hsp : splitFirst c xs with
      | none =>
        have hnot : c ∉ xs := ih.mp hsp
        constructor
        · intro _ hc
          cases hc with
          | inl h1 => exact hx h1.symm
          | inr h2 => exact hnot h2
        · intro _
          rfl
      | some p =>
        have hmem : c ∈ xs := by
          by_contra hc
          rw [ih.mpr hc] at hsp
          simp at hsp
        constructor
        · intro h
          simp at h
        · intro hcontra
          exact absurd (Or.inr hmem) hcontra

theorem route_to_string_of_parse (s : Str) (r : Route) :
    Route.parse s = .ok r → Route.to_string r = s := by
  intro h
  unfold Route.parse at h
  split at h
  · rename_i protocol rest hpipe
    have hs := splitFirst_eq_some '|' s protocol rest hpipe
    split at h
    · rename_i path param hcolon
      simp only [Except.ok.injEq] at h
      subst h
      have hrest := splitFirst_eq_some ':' rest path param hcolon
      simp [Route.to_string, hs, hrest]
    · rename_i hcolon
      simp only [Except.ok.injEq] at h
      subst h
      simp [Route.to_string, hs]
  · exact absurd h (by simp)

theorem route_parse_ok_of_mem (s : Str) (h : '|' ∈ s) :
    ∃ r, Route.parse s = .ok r := by
  unfold Route.parse
  split
  · split
    · exact ⟨_, rfl⟩
    · exact ⟨_, rfl⟩
  · rename_i heq
    exact absurd ((splitFirst_eq_none_iff '|' s).mp heq) (by simp [h])

/-- **C7.** Route parsing is round-trip stable: for every topic string that
contains the protocol delimiter `|`, `Route::parse` succeeds and
`parse (to_string (parse s)) = parse s`; for every string lacking the
delimiter, `parse` fails with `InvalidPath` (total, hence no panic). -/
theorem route_parse_roundtrip (s : Str) :
    ('|' ∈ s → ∃ r, Route.parse s = .ok r ∧
      Route.parse (Route.to_string r) = Route.parse s) ∧
    ('|' ∉ s → Route.parse s = .error (WsError.InvalidPath s)) := by
  constructor
  · intro hmem
    obtain ⟨r, hr⟩ := route_parse_ok_of_mem s hmem
    exact ⟨r, hr, by rw [route_to_string_of_parse s r hr]⟩
  · intro hmem
    unfold Route.parse
    rw [(splitFirst_eq_none_iff '|' s).mpr hmem]

/-- Witness for C7: both branches at concrete topic strings. -/
theorem route_parse_roundtrip_witness :
    (∃ r, Route.parse "@wfm|orders/new:created".data = .ok r ∧
      Route.parse (Route.to_string r) = Route.parse "@wfm|orders/new:created".data) ∧
    Route.parse "invalid_route_format".data =
      .error (WsError.InvalidPath "invalid_route_format".data) :=
  ⟨(route_parse_roundtrip "@wfm|orders/new:created".data).1 (by decide),
   (route_parse_roundtrip "invalid_route_format".data).2 (by decide)⟩

/-- **C6.** For an inbound message whose parsed route has a non-reserved base
path, dispatch invokes the handler under the exact `path:parameter` key when
one exists, otherwise the handler under the bare base path; with neither
registered the message is dropped and dispatch returns ok. -/
theorem route_message_resolution (r : Router) (m : WsMessage) (sender : MessageSender)
    (route : Route) (hparse : Route.parse m.route = .ok route)
    (hres : Router.is_path_reserved route.base_path = false) :
    (∀ cb, mapGet r.routes route.full_path = some cb →
      Router.route_message r m sender = cb m route sender) ∧
    (mapGet r.routes route.full_path = none →
      ∀ cb, mapGet r.routes route.base_path = some cb →
        Router.route_message r m sender = cb m route sender) ∧
    (mapGet r.routes route.full_path = none →
      mapGet r.routes route.base_path = none →
      Router.route_message r m sender = .ok ()) := by
  refine ⟨?_, ?_, ?_⟩
  · intro cb hcb
    simp only [Router.route_message, hparse, hres, Bool.false_eq_true, if_false, hcb]
    rfl
  · intro hfull cb hbase
    simp only [Router.route_message, hparse, hres, Bool.false_eq_true, if_false, hfull,
      hbase]
    rfl
  · intro hfull hbase
    simp only [Router.route_message, hparse, hres, Bool.false_eq_true, if_false, hfull,
      hbase]
    rfl

/-- Witness for C6, the spec's example scenario: with only a bare-path
handler for `"orders/new"` registered, a message with topic
`"ns|orders/new:created"` fires that bare-path handler. -/
theorem route_message_resolution_witness :
    Router.route_message routerOrdersNew msgOrdersNew senderIdle =
      cbMarker msgOrdersNew
        { protocol := "ns".data, path := "orders/new".data, parameter := some "created".data }
        senderIdle :=
  (route_message_resolution routerOrdersNew msgOrdersNew senderIdle
      { protocol := "ns".data, path := "orders/new".data, parameter := some "created".data }
      rfl rfl).2.1 rfl cbMarker rfl

/-- **C10.** Handler resolution never inspects the protocol component: two
parsed routes with equal path and equal parameter are reserved-or-not
together and resolve to the same handler-table entry, whatever their
protocols. -/
theorem route_resolution_protocol_irrelevant (r : Router) (m1 m2 : WsMessage)
    (r1 r2 : Route) (_h1 : Route.parse m1.route = .ok r1)
    (_h2 : Route.parse m2.route = .ok r2) (hpath : r1.path = r2.path)
    (hparam : r1.parameter = r2.parameter) :
    Router.is_path_reserved r1.base_path = Router.is_path_reserved r2.base_path ∧
    (mapGet r.routes r1.full_path).orElse (fun _ => mapGet r.routes r1.base_path) =
      (mapGet r.routes r2.full_path).orElse (fun _ => mapGet r.routes r2.base_path) := by
  have hbase : r1.base_path = r2.base_path := by
    simpa [Route.base_path] using hpath
  have hfull : r1.full_path = r2.full_path := by
    unfold Route.full_path
    rw [hpath, hparam]
  rw [hbase, hfull]
  exact ⟨rfl, rfl⟩

/-- Witness for C10: `"ns|orders/new:created"` and `"@wfm|orders/new:created"`
resolve identically on a concrete router. -/
theorem route_resolution_protocol_irrelevant_witness :
    Router.is_path_reserved (Route.base_path
        { protocol := "ns".data, path := "orders/new".data,
          parameter := some "created".data }) =
      Router.is_path_reserved (Route.base_path
        { protocol := "@wfm".data, path := "orders/new".data,
          parameter := some "created".data }) ∧
    (mapGet routerOrdersNew.routes (Route.full_path
        { protocol := "ns".data, path := "orders/new".data,
          parameter := some "created".data })).orElse
        (fun _ => mapGet routerOrdersNew.routes (Route.base_path
          { protocol := "ns".data, path := "orders/new".data,
            parameter := some "created".data })) =
      (mapGet routerOrdersNew.routes (Route.full_path
        { protocol := "@wfm".data, path := "orders/new".data,
          parameter := some "created".data })).orElse
        (fun _ => mapGet routerOrdersNew.routes (Route.base_path
          { protocol := "@wfm".data, path := "orders/new".data,
            parameter := some "created".data })) :=
  route_resolution_protocol_irrelevant routerOrdersNew msgOrdersNew msgWfmOrdersNew
    { protocol := "ns".data, path := "orders/new".data, parameter := some "created".data }
    { protocol := "@wfm".data, path := "orders/new".data, parameter := some "created".data }
    rfl rfl rfl rfl

/-- **C2 counterexample.** The public send operations do not reject the
reserved/internal topics: `send_message` on the synthesized internal
lifecycle topic `"@internal|internal/connected"` succeeds and enqueues the
message, and so does `send_request` (its check compares the protocol with
`"internal"`, which the `"@internal"` protocol does not equal). -/
theorem ws_send_reserved_counterexample :
    WsClient.send_message { sender := some { queue := [], closed := false } }
        WsMessage.connect =
      .ok { sender := some { queue := [WsMessage.connect], closed := false } } ∧
    WsClient.send_request { sender := some { queue := [], closed := false } }
        "@internal|internal/connected".data (Json.obj []) "id-1".data =
      .ok ("id-1".data,
        { sender := some
            { queue := [{ route := "@internal|internal/connected".data,
                          payload := some (Json.obj []),
                          id := some "id-1".data,
                          ref_id := none }],
              closed := false } }) :=
  ⟨rfl, rfl⟩

/-- **C2 amended.** Only `send_request` performs a reserved-route check, and
it rejects with `ReservedPath` exactly the routes whose parsed protocol
equals `"internal"`; `send_message` and `send_response` never return
`ReservedPath`. -/
theorem ws_send_reserved_policy (c : WsClient) (m : WsMessage) (route : Str)
    (payload : Json) (ref_id uuid : Str) :
    (∀ rp, Route.parse route = .ok rp → rp.protocol = "internal".data →
      WsClient.send_request c route payload uuid =
        .error (WsError.ReservedPath "Can\x27t send on internal routes".data)) ∧
    (∀ s, WsClient.send_message c m ≠ .error (WsError.ReservedPath s)) ∧
    (∀ s, WsClient.send_response c route payload ref_id uuid ≠
      .error (WsError.ReservedPath s)) := by
  refine ⟨?_, ?_, ?_⟩
  · intro rp hparse hproto
    simp only [WsClient.send_request, hparse, hproto]
    rfl
  · intro s
    cases hsnd : c.sender with
    | none => simp [WsClient.send_message, hsnd]
    | some snd =>
      by_cases hcl : snd.closed <;>
        simp [WsClient.send_message, hsnd, MessageSender.send_message, hcl, Except.map]
  · intro s
    cases hsnd : c.sender with
    | none => simp [WsClient.send_response, hsnd]
    | some snd =>
      by_cases hcl : snd.closed <;>
        simp [WsClient.send_response, hsnd, MessageSender.send_response,
          MessageSender.send_message, hcl, Except.map]

/-- Witness for C2 amended: concrete instances of the three conjuncts. -/
theorem ws_send_reserved_policy_witness :
    WsClient.send_request { sender := some senderIdle } "internal|x".data
        (Json.obj []) "id-2".data =
      .error (WsError.ReservedPath "Can\x27t send on internal routes".data) ∧
    WsClient.send_message { sender := none } WsMessage.connect ≠
      .error (WsError.ReservedPath "x".data) ∧
    WsClient.send_response { sender := none } "internal|x".data (Json.obj [])
        "r".data "id-3".data ≠ .error (WsError.ReservedPath "x".data) :=
  ⟨(ws_send_reserved_policy { sender := some senderIdle } WsMessage.connect
      "internal|x".data (Json.obj []) "r".data "id-2".data).1
      { protocol := "internal".data, path := "x".data, parameter := none } rfl rfl,
   (ws_send_reserved_policy { sender := none } WsMessage.connect
      "internal|x".data (Json.obj []) "r".data "id-2".data).2.1 "x".data,
   (ws_send_reserved_policy { sender := none } WsMessage.connect
      "internal|x".data (Json.obj []) "r".data "id-3".data).2.2 "x".data⟩

/-- **C1 (code evaluation).** `get_items` never writes `items_cache`: the
session state is unchanged on every path, so on a fresh session the first
successful call does not populate the cache and a second call invokes the
request path again — there is no cache hit. -/
theorem get_items_cache_never_populated :
    (∀ (c : Client Unauthenticated) (fetch : Except ApiError (List ItemObject)),
      (c.get_items fetch).client = c) ∧
    (Client.new.get_items fetchItemsSample).requested = true ∧
    ((Client.new.get_items fetchItemsSample).client.get_items fetchItemsSample).requested
      = true := by
  refine ⟨?_, rfl, rfl⟩
  intro c fetch
  unfold Client.get_items
  by_cases h : c.items_cache.isEmpty <;> cases fetch <;> simp [h]

/-- **C3 (code evaluation).** The error-kind mapping of `login` holds on the
listed failure outcomes, but `login` is not total: a readable response whose
`Authorization` header is shorter than the 4-byte `"JWT "` scheme prefix
makes `&token[4..]` panic instead of yielding `ParsingError`, and a failed
body read makes `resp.text().unwrap()` panic instead of yielding
`Unknown`. -/
theorem login_error_mapping_and_panic :
    Client.new.login "u".data "p".data "d".data (.netErr "boom".data)
        (.ok userSample) (.ok []) =
      some (.error (AuthError.Unknown "Unknown Error: boom".data)) ∧
    Client.new.login "u".data "p".data "d".data
        (.resp (some (.valid "JWT abc".data)) (.error ())) (.ok userSample) (.ok []) =
      some (.error AuthError.ParsingError) ∧
    Client.new.login "u".data "p".data "d".data
        (.resp none (.ok { user := userSample })) (.ok userSample) (.ok []) =
      some (.error AuthError.ParsingError) ∧
    Client.new.login "u".data "p".data "d".data
        (.resp (some .invalid) (.ok { user := userSample })) (.ok userSample) (.ok []) =
      some (.error AuthError.ParsingError) ∧
    Client.new.login "u".data "p".data "d".data
        (.resp (some (.valid "JWT abc".data)) (.ok { user := userSample }))
        (.ok userSample) (.error ApiError.RequestError) =
      some (.error (AuthError.Unknown "Unable to refresh user after authentication".data)) ∧
    Client.new.login "u".data "p".data "d".data
        (.resp (some (.valid "JW".data)) (.ok { user := userSample }))
        (.ok userSample) (.ok []) = none ∧
    Client.new.login "u".data "p".data "d".data .bodyReadErr
        (.ok userSample) (.ok []) = none :=
  ⟨rfl, rfl, rfl, rfl, rfl, rfl, rfl⟩

/-- **C4.** Login is all-or-nothing: when the credential exchange succeeds
(readable body, well-formed `Authorization` header at least as long as the
scheme prefix) but the post-login refresh fails on either fetch, `login`
returns a single failure result and no authenticated session. -/
theorem login_all_or_nothing (c : Client Unauthenticated) (u p d token : Str)
    (payload : AuthPayload) (uf : Except ApiError FullUser)
    (of : Except ApiError (List OrderItem))
    (htoken : 4 ≤ token.length)
    (hfail : (∃ e, uf = .error e) ∨ (∃ e, of = .error e)) :
    c.login u p d (.resp (some (.valid token)) (.ok payload)) uf of =
      some (.error (AuthError.Unknown "Unable to refresh user after authentication".data)) := by
  have hslice : rustSliceFrom 4 token = some (token.drop 4) := by
    simp [rustSliceFrom, htoken]
  simp only [Client.login, hslice]
  cases of with
  | error e => simp [Client.refresh]
  | ok os =>
    cases uf with
    | error e => simp [Client.refresh]
    | ok u =>
      rcases hfail with ⟨e, he⟩ | ⟨e, he⟩ <;> simp at he

/-- Witness for C4: a concrete exchange success followed by a failed orders
fetch yields the login failure. -/
theorem login_all_or_nothing_witness :
    Client.new.login "u".data "p".data "d".data
        (.resp (some (.valid "JWT abc".data)) (.ok { user := userSample }))
        (.ok userSample) (.error ApiError.RequestError) =
      some (.error (AuthError.Unknown "Unable to refresh user after authentication".data)) :=
  login_all_or_nothing Client.new "u".data "p".data "d".data "JWT abc".data
    { user := userSample } (.ok userSample) (.error ApiError.RequestError)
    (by decide) (Or.inr ⟨ApiError.RequestError, rfl⟩)

/-- **C5.** `refresh` is atomic: if the orders fetch fails, that error is
returned with the session unchanged; if the orders fetch succeeds but the
profile fetch fails, that error is returned with the session unchanged;
only when both succeed are the cached profile and order list both
replaced. -/
theorem refresh_atomic (c : Client Authenticated) (uf : Except ApiError FullUser)
    (of : Except ApiError (List OrderItem)) :
    (∀ e, of = .error e → c.refresh uf of = (.error e, c)) ∧
    (∀ e os, of = .ok os → uf = .error e → c.refresh uf of = (.error e, c)) ∧
    (∀ u os, uf = .ok u → of = .ok os →
      c.refresh uf of =
        (.ok u, { c with orders := os.map Order.new_owned, user := some u })) := by
  refine ⟨?_, ?_, ?_⟩
  · intro e he
    simp only [Client.refresh, he]
  · intro e os hos hu
    simp only [Client.refresh, hos, hu]
  · intro u os hu hos
    simp only [Client.refresh, hu, hos]

/-- Witness for C5: a failing fetch leaves the concrete session unchanged;
a fully successful pair replaces both caches. -/
theorem refresh_atomic_witness :
    clientAuthedSample.refresh (.ok userSample) (.error ApiError.RequestError) =
      (.error ApiError.RequestError, clientAuthedSample) ∧
    clientAuthedSample.refresh (.ok userSample) (.ok [orderSample2]) =
      (.ok userSample,
        { clientAuthedSample with
            orders := [orderSample2].map Order.new_owned, user := some userSample }) :=
  ⟨(refresh_atomic clientAuthedSample (.ok userSample)
      (.error ApiError.RequestError)).1 ApiError.RequestError rfl,
   (refresh_atomic clientAuthedSample (.ok userSample) (.ok [orderSample2])).2.2
      userSample [orderSample2] rfl rfl⟩

/-- **C8.** `take_order` is a purely local check against the order cache of
the last refresh: it succeeds returning the owned order exactly when an
order with the same identifier is cached, and fails with `Unauthorized`
otherwise; the session is taken by shared reference, so no state changes
and no fetch-outcome parameter exists. -/
theorem take_order_local (c : Client Authenticated) (order : Order) :
    ((∃ o ∈ c.orders, o.object.id = order.object.id) →
      c.take_order order = .ok (Order.new_owned order.get_type)) ∧
    ((∀ o ∈ c.orders, o.object.id ≠ order.object.id) →
      c.take_order order = .error ApiError.Unauthorized) := by
  constructor
  · intro h
    obtain ⟨o, ho, hid⟩ := h
    have hfound : (c.orders.find?
        (fun _order => _order.object.id == order.object.id)).isSome := by
      rw [List.find?_isSome]
      exact ⟨o, ho, by simp [hid]⟩
    unfold Client.take_order
    rw [if_pos hfound]
  · intro h
    unfold Client.take_order
    rw [if_neg]
    intro hfound
    rw [List.find?_isSome] at hfound
    obtain ⟨o, ho, heq⟩ := hfound
    exact h o ho (by simpa using heq)

/-- Witness for C8: on a session whose cache holds exactly `orderSample`,
taking an order with that identifier succeeds and taking one with a fresh
identifier fails with `Unauthorized`. -/
theorem take_order_local_witness :
    clientAuthedSample.take_order (Order.new orderSample) =
      .ok (Order.new_owned (Order.new orderSample).get_type) ∧
    clientAuthedSample.take_order (Order.new orderSample2) =
      .error ApiError.Unauthorized :=
  ⟨(take_order_local clientAuthedSample (Order.new orderSample)).1 (by decide),
   (take_order_local clientAuthedSample (Order.new orderSample2)).2 (by decide)⟩

/-- **C9.** `get_orders_top` with `filters = None`, or with filters whose
`user_activity` is `None`, maps every successful response to `Ok []`: the
status predicate is conjoined with the is-filtering flag, so nothing
passes the filter without a `user_activity`. -/
theorem get_orders_top_empty_without_user_activity {State : Type}
    (c : Client State) (filters : Option OrdersTopFilters) (data : OrdersTopResult)
    (hf : filters = none ∨ ∃ f, filters = some f ∧ f.user_activity = none) :
    c.get_orders_top filters (.ok data) = .ok [] := by
  rcases hf with rfl | ⟨f, rfl, hua⟩
  · simp [Client.get_orders_top]
  · simp [Client.get_orders_top, hua]

/-- Witness for C9: a response with a buy and a sell entry is emptied both
for absent filters and for filters lacking `user_activity`. -/
theorem get_orders_top_empty_without_user_activity_witness :
    Client.new.get_orders_top none (.ok ordersTopDataSample) = .ok [] ∧
    Client.new.get_orders_top (some filtersNoUA) (.ok ordersTopDataSample) = .ok [] :=
  ⟨get_orders_top_empty_without_user_activity Client.new none ordersTopDataSample
      (Or.inl rfl),
   get_orders_top_empty_without_user_activity Client.new (some filtersNoUA)
      ordersTopDataSample (Or.inr ⟨filtersNoUA, rfl, rfl⟩)⟩

end WfMarket
